import Mathlib

/-!
# Verification of flow2api-docker core resource-allocation logic

Shallow embedding of the two resource-allocation engines of the repository:

* `src/src/services/load_balancer.py` — `LoadBalancer.select_token`
* `src/src/services/browser_captcha.py` — `TokenBrowser.get_token`,
  `BrowserCaptchaService` (`get_token`, `report_error`, `_load_browser_count`,
  `reload_browser_count`, `_get_next_browser_id`, `_check_available`)

Python mutable state is embedded as explicit state passing; `asyncio` effects
that the claims mention (the admission semaphore) are embedded as a small-step
transition system; fallible configuration loads are `Except`; Python `None`
is `Option`.
-/

namespace Flow2API

/-! ## Load balancer (src/src/services/load_balancer.py) -/

/-- Account record as read by the balancer (`Token` of `src/src/core/models.py`;
only the fields `select_token` touches). The core never mutates it. -/
structure Token where
  id : Nat
  email : String
  credits : Int
  active : Bool
  image_enabled : Bool
  video_enabled : Bool
  deriving Repr, DecidableEq

/-- External collaborator predicates used by `select_token`:
`token_manager.is_at_valid`, `concurrency_manager.can_use_image`,
`concurrency_manager.can_use_video` (keyed by account id). -/
structure Collaborators where
  is_at_valid : Nat → Bool
  can_use_image : Nat → Bool
  can_use_video : Nat → Bool

/-- The per-token filter of the loop body of `LoadBalancer.select_token`
(lines 46–74): a token is appended to `available_tokens` iff its credential is
valid and, for each requested capability, the token has it enabled and has
concurrency headroom. The source `continue`s at the first failing check; the
conjunction below short-circuits in the same order. -/
def passes_filter (c : Collaborators) (for_image for_video : Bool) (t : Token) : Bool :=
  c.is_at_valid t.id &&
  (!for_image || (t.image_enabled && c.can_use_image t.id)) &&
  (!for_video || (t.video_enabled && c.can_use_video t.id))

/-- The `available_tokens` list built by the filtering loop. -/
def available_tokens (c : Collaborators) (for_image for_video : Bool)
    (active_tokens : List Token) : List Token :=
  active_tokens.filter (passes_filter c for_image for_video)

/-- Embedding of `LoadBalancer.select_token`. `active_tokens` is the snapshot returned by
`token_manager.get_active_tokens()`. `random.choice` over the nonempty
survivor list is embedded as selection at index `choice % length` for an
arbitrary `choice`. The source function performs no writes to any account
record or counter (it only reads and logs), so it embeds as a pure function. -/
def select_token (c : Collaborators) (for_image for_video : Bool)
    (active_tokens : List Token) (choice : Nat) : Option Token :=
  if active_tokens.isEmpty then none
  else
    let avail := available_tokens c for_image for_video active_tokens
    if avail.isEmpty then none
    else avail.get? (choice % avail.length)

theorem select_token_mem_available (c : Collaborators) (fi fv : Bool)
    (toks : List Token) (choice : Nat) (t : Token)
    (h : select_token c fi fv toks choice = some t) :
    t ∈ available_tokens c fi fv toks := by
  unfold select_token at h
  by_cases h0 : toks.isEmpty
  · simp [h0] at h
  · simp only [h0, if_false] at h
    by_cases h1 : (available_tokens c fi fv toks).isEmpty
    · simp [h1] at h
    · simp only [h1, if_false] at h
      exact List.get?_mem h

/-- Claim C1 (P5 + P6). Whenever `select_token` returns an account it satisfies
`active ∧ validCredential ∧ (¬requireImage ∨ (imageEnabled ∧ canUseImage)) ∧
(¬requireVideo ∨ (videoEnabled ∧ canUseVideo))` — assuming the account
directory's snapshot contains only active accounts, which is its contract
(`get_active_tokens`); and if no account of the snapshot satisfies the
conjunction, `select_token` returns `none`. The source performs no writes
(it only reads the snapshot and the collaborator predicates and logs), which
is why it embeds as a pure function of them. -/
theorem select_token_filter_spec (c : Collaborators) (fi fv : Bool)
    (toks : List Token) (choice : Nat)
    (hactive : ∀ u ∈ toks, u.active = true) :
    (∀ t, select_token c fi fv toks choice = some t →
      t.active = true ∧ c.is_at_valid t.id = true ∧
      (fi = true → t.image_enabled = true ∧ c.can_use_image t.id = true) ∧
      (fv = true → t.video_enabled = true ∧ c.can_use_video t.id = true)) ∧
    ((∀ u ∈ toks, passes_filter c fi fv u = false) →
      select_token c fi fv toks choice = none) := by
  constructor
  · intro t hsel
    have hmem := select_token_mem_available c fi fv toks choice t hsel
    unfold available_tokens at hmem
    rw [List.mem_filter] at hmem
    obtain ⟨hin, hfil⟩ := hmem
    unfold passes_filter at hfil
    simp only [Bool.and_eq_true, Bool.or_eq_true, Bool.not_eq_true'] at hfil
    obtain ⟨⟨hvalid, himg⟩, hvid⟩ := hfil
    refine ⟨hactive t hin, hvalid, ?_, ?_⟩
    · intro hfi
      rcases himg with h | h
      · rw [hfi] at h; exact absurd h (by simp)
      · exact ⟨h.1, h.2⟩
    · intro hfv
      rcases hvid with h | h
      · rw [hfv] at h; exact absurd h (by simp)
      · exact ⟨h.1, h.2⟩
  · intro hnone
    unfold select_token
    by_cases h0 : toks.isEmpty
    · simp [h0]
    · have : available_tokens c fi fv toks = [] := by
        unfold available_tokens
        rw [List.filter_eq_nil_iff]
        intro u hu
        simp [hnone u hu]
      simp [h0, this]

/-- Witness for C1: a concrete snapshot matching the spec's 3-account scenario
(A has image disabled, B is at its image-concurrency ceiling, C passes all
filters); the image-requiring selection returns C, which satisfies the filter
conjunction, and a snapshot where every account fails the filter yields
`none`. -/
theorem select_token_filter_spec_witness :
    (∀ t, select_token
        ⟨fun _ => true, fun i => decide (i ≠ 2), fun _ => true⟩ true false
        [⟨1, "a", 0, true, false, true⟩, ⟨2, "b", 0, true, true, true⟩,
         ⟨3, "c", 0, true, true, true⟩] 0 = some t →
      t.active = true ∧ (fun _ : Nat => true) t.id = true ∧
      (true = true → t.image_enabled = true ∧
        (fun i : Nat => decide (i ≠ 2)) t.id = true) ∧
      (false = true → t.video_enabled = true ∧
        (fun _ : Nat => true) t.id = true)) ∧
    ((∀ u ∈ [⟨1, "a", 0, true, false, true⟩, ⟨2, "b", 0, true, true, true⟩,
         ⟨3, "c", 0, true, true, true⟩],
        passes_filter ⟨fun _ => true, fun i => decide (i ≠ 2), fun _ => true⟩
          true false u = false) →
      select_token ⟨fun _ => true, fun i => decide (i ≠ 2), fun _ => true⟩
        true false
        [⟨1, "a", 0, true, false, true⟩, ⟨2, "b", 0, true, true, true⟩,
         ⟨3, "c", 0, true, true, true⟩] 0 = none) :=
  select_token_filter_spec
    ⟨fun _ => true, fun i => decide (i ≠ 2), fun _ => true⟩ true false
    [⟨1, "a", 0, true, false, true⟩, ⟨2, "b", 0, true, true, true⟩,
     ⟨3, "c", 0, true, true, true⟩] 0 (by decide)

/-! ## Challenge worker (src/src/services/browser_captcha.py, `TokenBrowser`) -/

/-- Outcome of one attempt of the retry loop of `TokenBrowser.get_token`
(lines 600–630). Each attempt launches a fresh browser session
(`_create_browser`, fresh random UA and viewport) and runs `_execute_captcha`
in it; the attempt either yields a validated token (`ok`), completes without
one (`noToken`: `_execute_captcha` returned `None`), or raises inside the
`try` — e.g. the browser launch itself fails — which the `except` clause
absorbs (`raised`). -/
inductive AttemptOutcome
  | ok (token : String)
  | noToken
  | raised
  deriving Repr, DecidableEq

/-- Constant `MAX_RETRIES` of `TokenBrowser.get_token`. -/
def MAX_RETRIES : Nat := 3

/-- Observable trace of one `TokenBrowser.get_token` call: the returned value,
how many loop iterations ran, how many fresh browser sessions were created
(one per iteration), how many `asyncio.sleep(1)` delays ran (one after every
failed attempt except the last), and the deltas to the worker's
`_solve_count` / `_error_count`. -/
structure SolveResult where
  token : Option String
  attemptsUsed : Nat
  sessions : Nat
  sleeps : Nat
  solveDelta : Nat
  errorDelta : Nat
  deriving Repr, DecidableEq

/-- One iff more attempts remain after a failed one — the guard
`if attempt < MAX_RETRIES - 1: await asyncio.sleep(1)` phrased on the list of
remaining attempts. -/
def sleepAfterFail : List AttemptOutcome → Nat
  | [] => 0
  | _ :: _ => 1

/-- The retry loop of `TokenBrowser.get_token` over a list of attempt
outcomes (head = first attempt): return at the first `ok`, otherwise count
the failure (`_error_count += 1`), sleep 1s unless this was the last attempt,
and continue; an exhausted list yields `None`. Exceptions (`raised`) follow
the same path as a `None` token because the `except` clause only logs and
increments `_error_count`. -/
def runSolve : List AttemptOutcome → SolveResult
  | [] => ⟨none, 0, 0, 0, 0, 0⟩
  | AttemptOutcome.ok t :: _ => ⟨some t, 1, 1, 0, 1, 0⟩
  | AttemptOutcome.noToken :: rest =>
    ⟨(runSolve rest).token, (runSolve rest).attemptsUsed + 1, (runSolve rest).sessions + 1,
     (runSolve rest).sleeps + sleepAfterFail rest,
     (runSolve rest).solveDelta, (runSolve rest).errorDelta + 1⟩
  | AttemptOutcome.raised :: rest =>
    ⟨(runSolve rest).token, (runSolve rest).attemptsUsed + 1, (runSolve rest).sessions + 1,
     (runSolve rest).sleeps + sleepAfterFail rest,
     (runSolve rest).solveDelta, (runSolve rest).errorDelta + 1⟩

/-- Embedding of `TokenBrowser.get_token`: the loop runs at most `MAX_RETRIES` iterations;
`outcomes i` is what the `i`-th attempt (0-based) would produce. The call
returns a `SolveResult` for every environment, including ones whose attempts
raise: the `try`/`except`/`finally` of the loop body never lets an exception
escape (the `finally` runs `_close_browser`, whose own failures are
swallowed). -/
def worker_get_token (outcomes : Nat → AttemptOutcome) : SolveResult :=
  runSolve ((List.range MAX_RETRIES).map outcomes)

theorem runSolve_attempts_le (l : List AttemptOutcome) :
    (runSolve l).attemptsUsed ≤ l.length := by
  induction l with
  | nil => simp [runSolve]
  | cons o rest ih =>
    cases o <;> simp [runSolve] <;> omega

theorem runSolve_attempts_pos (l : List AttemptOutcome) (h : l ≠ []) :
    1 ≤ (runSolve l).attemptsUsed := by
  cases l with
  | nil => exact absurd rfl h
  | cons o rest => cases o <;> simp [runSolve]

theorem runSolve_sessions (l : List AttemptOutcome) :
    (runSolve l).sessions = (runSolve l).attemptsUsed := by
  induction l with
  | nil => simp [runSolve]
  | cons o rest ih => cases o <;> simp [runSolve, ih]

theorem runSolve_sleeps (l : List AttemptOutcome) (h : l ≠ []) :
    (runSolve l).sleeps + 1 = (runSolve l).attemptsUsed := by
  induction l with
  | nil => exact absurd rfl h
  | cons o rest ih =>
    cases o with
    | ok t => simp [runSolve]
    | noToken =>
      cases rest with
      | nil => simp [runSolve, sleepAfterFail]
      | cons o2 rest2 =>
        have h2 := ih (by simp)
        simp only [runSolve, sleepAfterFail]
        omega
    | raised =>
      cases rest with
      | nil => simp [runSolve, sleepAfterFail]
      | cons o2 rest2 =>
        have h2 := ih (by simp)
        simp only [runSolve, sleepAfterFail]
        omega

theorem runSolve_none_of_no_ok (l : List AttemptOutcome)
    (h : ∀ o ∈ l, ∀ t, o ≠ AttemptOutcome.ok t) :
    (runSolve l).token = none := by
  induction l with
  | nil => simp [runSolve]
  | cons o rest ih =>
    cases o with
    | ok t => exact absurd rfl (h _ (List.mem_cons_self _ _) t)
    | noToken =>
      simp only [runSolve]
      exact ih (fun o ho => h o (List.mem_cons_of_mem _ ho))
    | raised =>
      simp only [runSolve]
      exact ih (fun o ho => h o (List.mem_cons_of_mem _ ho))

theorem runSolve_some_mem (l : List AttemptOutcome) (t : String)
    (h : (runSolve l).token = some t) : AttemptOutcome.ok t ∈ l := by
  induction l with
  | nil => simp [runSolve] at h
  | cons o rest ih =>
    cases o with
    | ok u =>
      simp only [runSolve, Option.some.injEq] at h
      rw [h]
      exact List.mem_cons_self _ _
    | noToken =>
      simp only [runSolve] at h
      exact List.mem_cons_of_mem _ (ih h)
    | raised =>
      simp only [runSolve] at h
      exact List.mem_cons_of_mem _ (ih h)

/-- Claim C3. A `TokenBrowser.get_token` call makes at most `MAX_RETRIES = 3`
attempts (and at least one), each attempt creating exactly one fresh browser
session, with exactly one fixed 1-second delay between consecutive attempts
(`sleeps + 1 = attemptsUsed`); if none of the 3 available attempts succeeds —
`raised` covering internal exceptions during browser launch or challenge
execution — the call returns `none`; and any returned token comes from one of
the first 3 attempts. The function is total on every outcome environment:
no exception propagates to the caller. -/
theorem worker_get_token_spec (outcomes : Nat → AttemptOutcome) :
    (worker_get_token outcomes).attemptsUsed ≤ MAX_RETRIES ∧
    1 ≤ (worker_get_token outcomes).attemptsUsed ∧
    (worker_get_token outcomes).sessions = (worker_get_token outcomes).attemptsUsed ∧
    (worker_get_token outcomes).sleeps + 1 = (worker_get_token outcomes).attemptsUsed ∧
    ((∀ i, i < MAX_RETRIES → ∀ t, outcomes i ≠ AttemptOutcome.ok t) →
      (worker_get_token outcomes).token = none) ∧
    (∀ t, (worker_get_token outcomes).token = some t →
      ∃ i, i < MAX_RETRIES ∧ outcomes i = AttemptOutcome.ok t) := by
  have hlist : (List.range MAX_RETRIES).map outcomes
      = [outcomes 0, outcomes 1, outcomes 2] := rfl
  have hne : (List.range MAX_RETRIES).map outcomes ≠ [] := by
    rw [hlist]; simp
  refine ⟨?_, ?_, ?_, ?_, ?_, ?_⟩
  · have := runSolve_attempts_le ((List.range MAX_RETRIES).map outcomes)
    simpa [worker_get_token, MAX_RETRIES] using this
  · exact runSolve_attempts_pos _ hne
  · exact runSolve_sessions _
  · exact runSolve_sleeps _ hne
  · intro h
    apply runSolve_none_of_no_ok
    intro o ho t
    rw [hlist] at ho
    simp only [List.mem_cons, List.not_mem_nil, or_false] at ho
    rcases ho with h0 | h1 | h2
    · rw [h0]; exact h 0 (by decide) t
    · rw [h1]; exact h 1 (by decide) t
    · rw [h2]; exact h 2 (by decide) t
  · intro t ht
    have hmem := runSolve_some_mem _ t ht
    rw [hlist] at hmem
    simp only [List.mem_cons, List.not_mem_nil, or_false] at hmem
    rcases hmem with h0 | h1 | h2
    · exact ⟨0, by decide, h0.symm⟩
    · exact ⟨1, by decide, h1.symm⟩
    · exact ⟨2, by decide, h2.symm⟩

/-- Witness for C3: on the environment where every attempt raises internally,
the call makes 3 attempts, 3 fresh sessions, 2 inter-attempt delays, and
returns `none` rather than an exception. -/
theorem worker_get_token_spec_witness :
    (worker_get_token (fun _ => AttemptOutcome.raised)).token = none ∧
    (worker_get_token (fun _ => AttemptOutcome.raised)).attemptsUsed = 3 ∧
    (worker_get_token (fun _ => AttemptOutcome.raised)).sessions = 3 ∧
    (worker_get_token (fun _ => AttemptOutcome.raised)).sleeps = 2 := by
  have h := worker_get_token_spec (fun _ => AttemptOutcome.raised)
  refine ⟨h.2.2.2.2.1 (fun i _ t => by simp), by decide, by decide, by decide⟩

/-! ## Challenge pool (src/src/services/browser_captcha.py, `BrowserCaptchaService`) -/

/-- The `_stats` dict of `BrowserCaptchaService`. -/
structure PoolStats where
  req_total : Nat
  gen_ok : Nat
  gen_fail : Nat
  api_403 : Nat
  deriving Repr, DecidableEq

/-- A live `TokenBrowser` entry of the `_browsers` dict: its identity,
session directory and lifetime counters (`_solve_count`, `_error_count`). -/
structure WorkerRec where
  token_id : Nat
  user_data_dir : String
  solve_count : Nat
  error_count : Nat
  deriving Repr, DecidableEq

/-- A `db.get_captcha_config()` result as read by `_load_browser_count`:
`browser_count` is a Python `int` (possibly zero or negative); the other two
fields are read through `getattr(..., None)` so they may be absent (`none`)
or empty. -/
structure CaptchaConfig where
  browser_count : Int
  website_key : Option String
  page_action : Option String
  deriving Repr, DecidableEq

/-- Module-level deployment facts probed at import time:
`IS_DOCKER`, `ALLOW_DOCKER_BROWSER_CAPTCHA`, `PLAYWRIGHT_AVAILABLE`. -/
structure Env where
  is_docker : Bool
  allow_docker_browser_captcha : Bool
  playwright_available : Bool
  deriving Repr, DecidableEq

/-- Predicate for `_check_available`: it raises `RuntimeError` iff this is `false`:
the first guard fires when `IS_DOCKER and not ALLOW_DOCKER_BROWSER_CAPTCHA`,
the second when playwright is missing (`not PLAYWRIGHT_AVAILABLE or
async_playwright is None`, the latter implied by the former here). -/
def available (e : Env) : Bool :=
  !(e.is_docker && !e.allow_docker_browser_captcha) && e.playwright_available

/-- Mutable fields of the `BrowserCaptchaService` singleton. The
`asyncio.Semaphore` object itself carries no persistent data beyond its
capacity; `semaphore_capacity = none` is `_token_semaphore = None`. -/
structure PoolState where
  website_key : String
  page_action : String
  browser_count : Nat
  round_robin_index : Nat
  browsers : List (Nat × WorkerRec)
  stats : PoolStats
  semaphore_capacity : Option Nat
  deriving Repr, DecidableEq

/-- State built by `BrowserCaptchaService.__init__` (before `_load_browser_count` runs). -/
def initPoolState : PoolState where
  website_key := "6LdsFiUsAAAAAIjVDZcuLhaHiDn5nnHVXVRQGeMV"
  page_action := "IMAGE_GENERATION"
  browser_count := 1
  round_robin_index := 0
  browsers := []
  stats := ⟨0, 0, 0, 0⟩
  semaphore_capacity := none

/-- Python truthiness applied to a `getattr(cfg, field, None)` string:
`if getattr(...): self.x = value` keeps the current value unless the config
field is present and non-empty. -/
def applyTruthy (cur : String) : Option String → String
  | none => cur
  | some s => if s = "" then cur else s

/-- Embedding of `_load_browser_count`. `fetch = none` is `self.db is None` (the `if
self.db:` block is skipped); `some (Except.error _)` is `get_captcha_config`
raising, handled by the `except` clause which forces `_browser_count = 1`;
`some (Except.ok cfg)` applies `max(1, cfg.browser_count)` and the truthy
`website_key` / `page_action` overrides. In every case the final statement
rebuilds `_token_semaphore = asyncio.Semaphore(self._browser_count)`. -/
def load_browser_count (fetch : Option (Except String CaptchaConfig))
    (s : PoolState) : PoolState :=
  let s1 :=
    match fetch with
    | none => s
    | some (Except.error _) => { s with browser_count := 1 }
    | some (Except.ok cfg) =>
      { s with
        browser_count := (max 1 cfg.browser_count).toNat
        website_key := applyTruthy s.website_key cfg.website_key
        page_action := applyTruthy s.page_action cfg.page_action }
  { s1 with semaphore_capacity := some s1.browser_count }

/-- Embedding of `reload_browser_count`: re-run `_load_browser_count`, then, when the
count shrank, drop every `_browsers` entry whose id is `≥` the new count. -/
def reload_browser_count (fetch : Option (Except String CaptchaConfig))
    (s : PoolState) : PoolState :=
  let s1 := load_browser_count fetch s
  if s1.browser_count < s.browser_count then
    { s1 with
      browsers := s1.browsers.filter (fun p => decide (p.1 < s1.browser_count)) }
  else s1

/-- Embedding of `_get_next_browser_id`: current index modulo `_browser_count`,
post-incrementing the index by exactly 1 (the only write to
`_round_robin_index` anywhere in the class; nothing ever resets it). -/
def _get_next_browser_id (s : PoolState) : Nat × PoolState :=
  (s.round_robin_index % s.browser_count,
   { s with round_robin_index := s.round_robin_index + 1 })

/-- Worker ids handed out by `n` consecutive dispatches with no
reconfiguration in between. -/
def dispatchSeq (s : PoolState) : Nat → List Nat
  | 0 => []
  | n + 1 =>
    (_get_next_browser_id s).1 :: dispatchSeq (_get_next_browser_id s).2 n

/-- Dict lookup `self._browsers.get(browser_id)` on the association list. -/
def lookupBrowser (bs : List (Nat × WorkerRec)) (i : Nat) : Option WorkerRec :=
  (bs.find? (fun p => p.1 == i)).map Prod.snd

/-- Embedding of `_get_or_create_browser`: reuse the entry if present, otherwise create
`TokenBrowser(browser_id, base/browser_<id>)` with zeroed counters. -/
def get_or_create_browser (bid : Nat) (s : PoolState) : PoolState :=
  match lookupBrowser s.browsers bid with
  | some _ => s
  | none =>
    { s with
      browsers :=
        s.browsers ++ [(bid, ⟨bid, "browser_data_rt/browser_" ++ toString bid, 0, 0⟩)] }

/-- How the `action` argument of `BrowserCaptchaService.get_token` is given:
the Python caller can omit it (taking the parameter default
`"IMAGE_GENERATION"` from the signature) or pass a value, possibly `None` or
empty. -/
inductive ActionArg
  | omitted
  | passed (value : Option String)
  deriving Repr, DecidableEq

/-- The action that reaches the worker's solve: the Python parameter default
(`action: str = "IMAGE_GENERATION"`, line 753) followed by
`action = action or self.page_action` (line 767) — the fallback to
`page_action` fires only on a falsy (None/empty) argument. -/
def resolveAction (arg : ActionArg) (page_action : String) : String :=
  match arg with
  | ActionArg.omitted =>
    if "IMAGE_GENERATION" = "" then page_action else "IMAGE_GENERATION"
  | ActionArg.passed none => page_action
  | ActionArg.passed (some s) => if s = "" then page_action else s

/-- Embedding of `BrowserCaptchaService.get_token` (state effects and return value).
`solve` abstracts the dispatched worker's `TokenBrowser.get_token` as a
function of the action string (its outcome over 3 attempts is the
`worker_get_token` model above; its writes to that worker's own
`_solve_count`/`_error_count` are internal to the worker). The
`async with self._token_semaphore` admission only schedules — its safety is
the `AdmissionStep` system below — and both the semaphore and the
no-semaphore branch of the source perform the identical sequence of state
updates modeled here. -/
def pool_get_token (e : Env) (arg : ActionArg) (solve : String → Option String)
    (s : PoolState) : Except String (Option String × Nat) × PoolState :=
  if available e = false then
    (Except.error "browser captcha unavailable", s)
  else
    let action := resolveAction arg s.page_action
    let s1 := { s with stats := { s.stats with req_total := s.stats.req_total + 1 } }
    let bid := (_get_next_browser_id s1).1
    let s2 := (_get_next_browser_id s1).2
    let s3 := get_or_create_browser bid s2
    let tok := solve action
    let s4 :=
      match tok with
      | some _ => { s3 with stats := { s3.stats with gen_ok := s3.stats.gen_ok + 1 } }
      | none => { s3 with stats := { s3.stats with gen_fail := s3.stats.gen_fail + 1 } }
    (Except.ok (tok, bid), s4)

/-- Embedding of `report_error`: under `_browsers_lock`, increment `_stats["api_403"]` and
(when an id was supplied) log it; nothing else is read or written, and the
id — of any value, even one that never indexed a worker — only feeds the log
line. -/
def report_error (browser_id : Option Int) (s : PoolState) : PoolState :=
  { s with stats := { s.stats with api_403 := s.stats.api_403 + 1 } }

/-! ## Admission semaphore (C2): interleaving model of
`async with self._token_semaphore` around the delegated solve. -/

/-- Phase of one `get_token` caller relative to the admission semaphore:
before/blocked at the `async with`, inside it (running
`browser.get_token`), or done (slot released). -/
inductive Phase
  | waiting
  | solving
  | finished
  deriving Repr, DecidableEq

def isSolving : Phase → Bool
  | Phase.solving => true
  | _ => false

/-- Number of solve executions currently in flight. -/
def inFlight (ts : List Phase) : Nat := ts.countP isSolving

/-- The pool seen by the scheduler: the semaphore capacity
(`asyncio.Semaphore(self._browser_count)`) and the phase of each caller. -/
structure AdmissionState where
  capacity : Nat
  tasks : List Phase
  deriving Repr, DecidableEq

/-- Interleaving semantics of the admission gate. `acquire` is
`asyncio.Semaphore` granting the slot to a waiting caller — possible only
while the holders number fewer than the capacity; `release` is a caller
leaving the `async with` block (which the source reaches on every exit path
of the block). -/
inductive AdmissionStep : AdmissionState → AdmissionState → Prop
  | acquire (σ : AdmissionState) (i : Nat)
      (h : σ.tasks.get? i = some Phase.waiting)
      (hcap : inFlight σ.tasks < σ.capacity) :
      AdmissionStep σ ⟨σ.capacity, σ.tasks.set i Phase.solving⟩
  | release (σ : AdmissionState) (i : Nat)
      (h : σ.tasks.get? i = some Phase.solving) :
      AdmissionStep σ ⟨σ.capacity, σ.tasks.set i Phase.finished⟩

/-- States reachable from any number of fresh callers, none yet admitted. -/
inductive AdmissionReachable : AdmissionState → Prop
  | init (capacity n : Nat) :
      AdmissionReachable ⟨capacity, List.replicate n Phase.waiting⟩
  | step {σ σ' : AdmissionState} :
      AdmissionReachable σ → AdmissionStep σ σ' → AdmissionReachable σ'

theorem countP_set (p : Phase → Bool) (l : List Phase) (i : Nat) (a b : Phase)
    (h : l.get? i = some a) :
    (l.set i b).countP p + (if p a then 1 else 0)
      = l.countP p + (if p b then 1 else 0) := by
  induction l generalizing i with
  | nil => simp at h
  | cons x xs ih =>
    cases i with
    | zero =>
      simp only [List.get?] at h
      injection h with h
      subst h
      simp [List.set, List.countP_cons]
      omega
    | succ j =>
      simp only [List.get?] at h
      have h2 := ih j h
      simp only [List.set, List.countP_cons]
      omega

theorem inFlight_replicate_waiting (n : Nat) :
    inFlight (List.replicate n Phase.waiting) = 0 := by
  induction n with
  | zero => rfl
  | succ m ih =>
    simp only [inFlight, List.replicate, List.countP_cons] at *
    simp [ih, isSolving]

/-- Claim C2 (P1). In every state reachable by interleaving `acquireToken`
callers through the admission semaphore, the number of in-flight solve
executions is at most the configured capacity, which the pool keeps equal to
`_browser_count` (`asyncio.Semaphore(self._browser_count)` in
`_load_browser_count`). -/
theorem admission_bound (σ : AdmissionState) (h : AdmissionReachable σ) :
    inFlight σ.tasks ≤ σ.capacity := by
  induction h with
  | init capacity n =>
    simp [inFlight_replicate_waiting]
  | step hreach hstep ih =>
    cases hstep with
    | acquire i hget hcap =>
      have hc := countP_set isSolving _ i Phase.waiting Phase.solving hget
      simp [isSolving] at hc
      simp only [inFlight] at *
      omega
    | release i hget =>
      have hc := countP_set isSolving _ i Phase.solving Phase.finished hget
      simp [isSolving] at hc
      simp only [inFlight] at *
      omega

/-- Witness for C2: the state with one admitted caller under capacity 1,
reached by one `acquire` from the initial state. -/
theorem admission_bound_witness : inFlight [Phase.solving] ≤ 1 :=
  admission_bound ⟨1, [Phase.solving]⟩
    (AdmissionReachable.step (AdmissionReachable.init 1 1)
      (AdmissionStep.acquire ⟨1, List.replicate 1 Phase.waiting⟩ 0 rfl
        (by decide)))

/-! ## Theorems about the pool operations -/

theorem dispatchSeq_get? (n : Nat) (s : PoolState) (i : Nat) (h : i < n) :
    (dispatchSeq s n).get? i
      = some ((s.round_robin_index + i) % s.browser_count) := by
  induction n generalizing s i with
  | zero => omega
  | succ m ih =>
    cases i with
    | zero => simp [dispatchSeq, _get_next_browser_id]
    | succ j =>
      have hj : j < m := by omega
      have h2 := ih (_get_next_browser_id s).2 j hj
      simp only [dispatchSeq, List.get?]
      rw [h2]
      simp only [_get_next_browser_id]
      have harith : s.round_robin_index + 1 + j = s.round_robin_index + (j + 1) := by
        omega
      rw [harith]

/-- Claim C4. Each dispatch increments `_round_robin_index` by exactly 1 (and
`_get_next_browser_id` is the only write to it in the source — no reset path
exists short of process restart); the `k`-th of `n` consecutive dispatches
from a fresh index assigns worker id `(k-1) % browser_count`; and with
`browser_count = 2`, five sequential dispatches hand out ids `0,1,0,1,0`. -/
theorem round_robin_dispatch_spec (s : PoolState) (k n : Nat)
    (h1 : 1 ≤ k) (h2 : k ≤ n) :
    (_get_next_browser_id s).2.round_robin_index = s.round_robin_index + 1 ∧
    (_get_next_browser_id s).1 = s.round_robin_index % s.browser_count ∧
    (s.round_robin_index = 0 →
      (dispatchSeq s n).get? (k - 1) = some ((k - 1) % s.browser_count)) ∧
    dispatchSeq { initPoolState with browser_count := 2 } 5 = [0, 1, 0, 1, 0] := by
  refine ⟨rfl, rfl, ?_, by decide⟩
  intro h0
  have h3 := dispatchSeq_get? n s (k - 1) (by omega)
  rw [h0] at h3
  simpa using h3

/-- Witness for C4: the third of five dispatches over two workers gets id
`2 % 2 = 0`, and the five dispatched ids are `0,1,0,1,0`. -/
theorem round_robin_dispatch_spec_witness :
    (dispatchSeq { initPoolState with browser_count := 2 } 5).get? 2
      = some (2 % 2) ∧
    dispatchSeq { initPoolState with browser_count := 2 } 5 = [0, 1, 0, 1, 0] := by
  have h := round_robin_dispatch_spec { initPoolState with browser_count := 2 } 3 5
    (by decide) (by decide)
  exact ⟨h.2.2.1 rfl, h.2.2.2⟩

/-- Claim C10. Whatever the configuration store reports — a zero or negative
`browser_count`, a missing database, or a load that raises — after
`_load_browser_count` the pool's worker count is at least 1 (the source
clamps with `max(1, ...)` and falls back to 1 on exceptions; with no
database the initial value 1 persists, which is the `1 ≤ s.browser_count`
hypothesis); hence the round-robin modulus is positive and every dispatched
id is strictly below the count — no modulo by zero. -/
theorem browser_count_positive (fetch : Option (Except String CaptchaConfig))
    (s : PoolState) (h : 1 ≤ s.browser_count) :
    1 ≤ (load_browser_count fetch s).browser_count ∧
    initPoolState.browser_count = 1 ∧
    (∀ idx : Nat,
      idx % (load_browser_count fetch s).browser_count
        < (load_browser_count fetch s).browser_count) := by
  have hpos : 1 ≤ (load_browser_count fetch s).browser_count := by
    match fetch with
    | none => simpa [load_browser_count] using h
    | some (Except.error msg) => simp [load_browser_count]
    | some (Except.ok cfg) =>
      simp only [load_browser_count]
      omega
  exact ⟨hpos, rfl, fun idx => Nat.mod_lt idx (by omega)⟩

/-- Witness for C10: loading a configuration that reports
`browser_count = -5` still yields a count of at least 1 and a
below-count dispatch id. -/
theorem browser_count_positive_witness :
    1 ≤ (load_browser_count (some (Except.ok ⟨-5, none, none⟩))
          initPoolState).browser_count ∧
    initPoolState.browser_count = 1 ∧
    (∀ idx : Nat,
      idx % (load_browser_count (some (Except.ok ⟨-5, none, none⟩))
              initPoolState).browser_count
        < (load_browser_count (some (Except.ok ⟨-5, none, none⟩))
            initPoolState).browser_count) :=
  browser_count_positive (some (Except.ok ⟨-5, none, none⟩)) initPoolState
    (by decide)

theorem load_browser_count_frame (fetch : Option (Except String CaptchaConfig))
    (s : PoolState) :
    (load_browser_count fetch s).browsers = s.browsers ∧
    (load_browser_count fetch s).round_robin_index = s.round_robin_index ∧
    (load_browser_count fetch s).stats = s.stats ∧
    (load_browser_count fetch s).semaphore_capacity
      = some (load_browser_count fetch s).browser_count := by
  match fetch with
  | none => simp [load_browser_count]
  | some (Except.error msg) => simp [load_browser_count]
  | some (Except.ok cfg) => simp [load_browser_count]

/-- Claim C7. When a reload shrinks the worker count, exactly the `_browsers`
entries with id `≥` the new count are dropped: an entry survives iff it was
live before and its id is below the new count (so surviving workers keep
their records — counters included — unchanged); the round-robin index and
the pool counters are untouched; and the admission capacity (the rebuilt
semaphore) equals the new count. -/
theorem reload_shrink_spec (fetch : Option (Except String CaptchaConfig))
    (s : PoolState)
    (h : (load_browser_count fetch s).browser_count < s.browser_count) :
    (reload_browser_count fetch s).browser_count
      = (load_browser_count fetch s).browser_count ∧
    (∀ e : Nat × WorkerRec,
      e ∈ (reload_browser_count fetch s).browsers ↔
        e ∈ s.browsers ∧ e.1 < (load_browser_count fetch s).browser_count) ∧
    (reload_browser_count fetch s).round_robin_index = s.round_robin_index ∧
    (reload_browser_count fetch s).stats = s.stats ∧
    (reload_browser_count fetch s).semaphore_capacity
      = some (reload_browser_count fetch s).browser_count := by
  have hf := load_browser_count_frame fetch s
  unfold reload_browser_count
  rw [if_pos h]
  refine ⟨rfl, ?_, hf.2.1, hf.2.2.1, hf.2.2.2⟩
  intro e
  simp only [List.mem_filter, hf.1, decide_eq_true_eq]

/-- Witness for C7: a pool with workers 0..3 reloaded down to 2 workers keeps
exactly ids 0 and 1 with their counters, the index, and the stats, and
resizes the capacity to 2. -/
theorem reload_shrink_spec_witness :
    (reload_browser_count (some (Except.ok ⟨2, none, none⟩))
      { initPoolState with
        browser_count := 4
        round_robin_index := 7
        browsers := [(0, ⟨0, "d0", 5, 1⟩), (1, ⟨1, "d1", 2, 0⟩),
                     (2, ⟨2, "d2", 9, 3⟩), (3, ⟨3, "d3", 0, 0⟩)] }).browser_count
      = (load_browser_count (some (Except.ok ⟨2, none, none⟩))
          { initPoolState with
            browser_count := 4
            round_robin_index := 7
            browsers := [(0, ⟨0, "d0", 5, 1⟩), (1, ⟨1, "d1", 2, 0⟩),
                         (2, ⟨2, "d2", 9, 3⟩), (3, ⟨3, "d3", 0, 0⟩)] }).browser_count ∧
    (∀ e : Nat × WorkerRec,
      e ∈ (reload_browser_count (some (Except.ok ⟨2, none, none⟩))
        { initPoolState with
          browser_count := 4
          round_robin_index := 7
          browsers := [(0, ⟨0, "d0", 5, 1⟩), (1, ⟨1, "d1", 2, 0⟩),
                       (2, ⟨2, "d2", 9, 3⟩), (3, ⟨3, "d3", 0, 0⟩)] }).browsers ↔
        e ∈ [(0, ⟨0, "d0", 5, 1⟩), (1, ⟨1, "d1", 2, 0⟩),
             (2, ⟨2, "d2", 9, 3⟩), (3, (⟨3, "d3", 0, 0⟩ : WorkerRec))] ∧
          e.1 < (load_browser_count (some (Except.ok ⟨2, none, none⟩))
            { initPoolState with
              browser_count := 4
              round_robin_index := 7
              browsers := [(0, ⟨0, "d0", 5, 1⟩), (1, ⟨1, "d1", 2, 0⟩),
                           (2, ⟨2, "d2", 9, 3⟩), (3, ⟨3, "d3", 0, 0⟩)] }).browser_count) ∧
    (reload_browser_count (some (Except.ok ⟨2, none, none⟩))
      { initPoolState with
        browser_count := 4
        round_robin_index := 7
        browsers := [(0, ⟨0, "d0", 5, 1⟩), (1, ⟨1, "d1", 2, 0⟩),
                     (2, ⟨2, "d2", 9, 3⟩), (3, ⟨3, "d3", 0, 0⟩)] }).round_robin_index = 7 ∧
    (reload_browser_count (some (Except.ok ⟨2, none, none⟩))
      { initPoolState with
        browser_count := 4
        round_robin_index := 7
        browsers := [(0, ⟨0, "d0", 5, 1⟩), (1, ⟨1, "d1", 2, 0⟩),
                     (2, ⟨2, "d2", 9, 3⟩), (3, ⟨3, "d3", 0, 0⟩)] }).stats = ⟨0, 0, 0, 0⟩ ∧
    (reload_browser_count (some (Except.ok ⟨2, none, none⟩))
      { initPoolState with
        browser_count := 4
        round_robin_index := 7
        browsers := [(0, ⟨0, "d0", 5, 1⟩), (1, ⟨1, "d1", 2, 0⟩),
                     (2, ⟨2, "d2", 9, 3⟩), (3, ⟨3, "d3", 0, 0⟩)] }).semaphore_capacity
      = some (reload_browser_count (some (Except.ok ⟨2, none, none⟩))
          { initPoolState with
            browser_count := 4
            round_robin_index := 7
            browsers := [(0, ⟨0, "d0", 5, 1⟩), (1, ⟨1, "d1", 2, 0⟩),
                         (2, ⟨2, "d2", 9, 3⟩), (3, ⟨3, "d3", 0, 0⟩)] }).browser_count :=
  reload_shrink_spec (some (Except.ok ⟨2, none, none⟩))
    { initPoolState with
      browser_count := 4
      round_robin_index := 7
      browsers := [(0, ⟨0, "d0", 5, 1⟩), (1, ⟨1, "d1", 2, 0⟩),
                   (2, ⟨2, "d2", 9, 3⟩), (3, ⟨3, "d3", 0, 0⟩)] }
    (by decide)

/-- Claim C8. The operation `report_error` bumps `api_403` (the `reportedInvalid` counter) by
exactly 1 and leaves every other component of the pool untouched: no worker
is removed, blacklisted or recycled, the other three counters and the
round-robin index are unchanged — and, being a total function of an
arbitrary optional id, the call cannot fail whatever `browser_id` is. -/
theorem report_error_spec (browser_id : Option Int) (s : PoolState) :
    (report_error browser_id s).stats.api_403 = s.stats.api_403 + 1 ∧
    (report_error browser_id s).stats.req_total = s.stats.req_total ∧
    (report_error browser_id s).stats.gen_ok = s.stats.gen_ok ∧
    (report_error browser_id s).stats.gen_fail = s.stats.gen_fail ∧
    (report_error browser_id s).browsers = s.browsers ∧
    (report_error browser_id s).browser_count = s.browser_count ∧
    (report_error browser_id s).round_robin_index = s.round_robin_index ∧
    (report_error browser_id s).semaphore_capacity = s.semaphore_capacity ∧
    (report_error browser_id s).website_key = s.website_key ∧
    (report_error browser_id s).page_action = s.page_action := by
  simp [report_error]

/-- Claim C5. When the automation backend is unusable (Docker with in-browser
solving disabled by policy, or playwright failed to initialize),
`get_token` fails synchronously with the unavailability error and the state
is returned exactly as it was: no counter (including `req_total`) moves, no
worker is created, the round-robin index stands still — the `_check_available()`
call is the first statement of `get_token`, before any resource is touched. -/
theorem unavailable_gate_spec (e : Env) (arg : ActionArg)
    (solve : String → Option String) (s : PoolState)
    (h : available e = false) :
    (pool_get_token e arg solve s).2 = s ∧
    (pool_get_token e arg solve s).1
      = Except.error "browser captcha unavailable" := by
  simp [pool_get_token, h]

/-- Witness for C5: a Docker deployment with
`ALLOW_DOCKER_BROWSER_CAPTCHA` unset to false refuses the call and leaves the
initial pool state byte-for-byte intact. -/
theorem unavailable_gate_spec_witness :
    (pool_get_token ⟨true, false, true⟩ ActionArg.omitted (fun _ => none)
        initPoolState).2 = initPoolState ∧
    (pool_get_token ⟨true, false, true⟩ ActionArg.omitted (fun _ => none)
        initPoolState).1 = Except.error "browser captcha unavailable" :=
  unavailable_gate_spec ⟨true, false, true⟩ ActionArg.omitted (fun _ => none)
    initPoolState (by decide)

theorem get_or_create_browser_frame (bid : Nat) (s : PoolState) :
    (get_or_create_browser bid s).stats = s.stats ∧
    (get_or_create_browser bid s).round_robin_index = s.round_robin_index ∧
    (get_or_create_browser bid s).browser_count = s.browser_count ∧
    (get_or_create_browser bid s).page_action = s.page_action ∧
    (get_or_create_browser bid s).semaphore_capacity = s.semaphore_capacity := by
  unfold get_or_create_browser
  cases lookupBrowser s.browsers bid <;> simp

/-- Claim C6. Every completed `get_token` call increments `req_total` by
exactly 1 and exactly one of `gen_ok` / `gen_fail` by exactly 1 — `gen_ok`
iff the delegated solve returned a token — while `api_403` is untouched.
The increment happens once per `get_token` call, on the single value the
delegated worker call returns, independently of how many internal attempts
that worker burned. -/
theorem stats_increment_spec (e : Env) (arg : ActionArg)
    (solve : String → Option String) (s : PoolState)
    (h : available e = true) :
    (pool_get_token e arg solve s).2.stats.req_total = s.stats.req_total + 1 ∧
    (pool_get_token e arg solve s).2.stats.api_403 = s.stats.api_403 ∧
    ((solve (resolveAction arg s.page_action)).isSome = true →
      (pool_get_token e arg solve s).2.stats.gen_ok = s.stats.gen_ok + 1 ∧
      (pool_get_token e arg solve s).2.stats.gen_fail = s.stats.gen_fail) ∧
    (solve (resolveAction arg s.page_action) = none →
      (pool_get_token e arg solve s).2.stats.gen_fail = s.stats.gen_fail + 1 ∧
      (pool_get_token e arg solve s).2.stats.gen_ok = s.stats.gen_ok) := by
  have hfr := get_or_create_browser_frame
  cases hsolve : solve (resolveAction arg s.page_action) with
  | none =>
    simp [pool_get_token, h, hsolve, _get_next_browser_id, get_or_create_browser_frame]
  | some t =>
    simp [pool_get_token, h, hsolve, _get_next_browser_id, get_or_create_browser_frame]

/-- Witness for C6: a pool call whose delegated solve is the worker loop with
all 3 attempts raising — the worker records 3 failed attempts
(`errorDelta = 3`) yet the pool's `gen_fail` rises by exactly 1 and
`req_total` by exactly 1 for this call. -/
theorem stats_increment_spec_witness :
    (pool_get_token ⟨false, true, true⟩ ActionArg.omitted
        (fun _ => (worker_get_token (fun _ => AttemptOutcome.raised)).token)
        initPoolState).2.stats.gen_fail = initPoolState.stats.gen_fail + 1 ∧
    (pool_get_token ⟨false, true, true⟩ ActionArg.omitted
        (fun _ => (worker_get_token (fun _ => AttemptOutcome.raised)).token)
        initPoolState).2.stats.gen_ok = initPoolState.stats.gen_ok ∧
    (pool_get_token ⟨false, true, true⟩ ActionArg.omitted
        (fun _ => (worker_get_token (fun _ => AttemptOutcome.raised)).token)
        initPoolState).2.stats.req_total = initPoolState.stats.req_total + 1 ∧
    (worker_get_token (fun _ => AttemptOutcome.raised)).errorDelta = 3 := by
  have h := stats_increment_spec ⟨false, true, true⟩ ActionArg.omitted
    (fun _ => (worker_get_token (fun _ => AttemptOutcome.raised)).token)
    initPoolState (by decide)
  exact ⟨(h.2.2.2 rfl).1, (h.2.2.2 rfl).2, h.1, by decide⟩

/-- Counterexample for C9: a pool whose configured `page_action` is
`"VIDEO_GENERATION"` still hands an omitted-action call the hardcoded
parameter default `"IMAGE_GENERATION"` — the signature default
`action: str = "IMAGE_GENERATION"` is truthy, so the
`action or self.page_action` fallback never fires for an omitted argument. -/
theorem default_action_counterexample :
    resolveAction ActionArg.omitted "VIDEO_GENERATION" ≠ "VIDEO_GENERATION" := by
  decide

/-- Claim C9, amended. The configured `page_action` is used only when the
caller passes the action explicitly as a null or empty value; an omitted
argument resolves to the hardcoded signature default `"IMAGE_GENERATION"`
regardless of configuration. In the null-argument case the value delivered
to the delegated solve is exactly the pool's `page_action`. -/
theorem resolve_action_amended (e : Env) (solve : String → Option String)
    (s : PoolState) (h : available e = true) :
    resolveAction (ActionArg.passed none) s.page_action = s.page_action ∧
    resolveAction (ActionArg.passed (some "")) s.page_action = s.page_action ∧
    resolveAction ActionArg.omitted s.page_action = "IMAGE_GENERATION" ∧
    (pool_get_token e (ActionArg.passed none) solve s).1
      = Except.ok (solve s.page_action,
          s.round_robin_index % s.browser_count) := by
  refine ⟨rfl, by simp [resolveAction], by simp [resolveAction], ?_⟩
  simp [pool_get_token, h, resolveAction, _get_next_browser_id]

/-- Witness for C9 (amended): on the fresh pool with the identity solve, the
null-action call forwards the configured `page_action` to the solve. -/
theorem resolve_action_amended_witness :
    resolveAction (ActionArg.passed none) initPoolState.page_action
      = initPoolState.page_action ∧
    resolveAction (ActionArg.passed (some "")) initPoolState.page_action
      = initPoolState.page_action ∧
    resolveAction ActionArg.omitted initPoolState.page_action
      = "IMAGE_GENERATION" ∧
    (pool_get_token ⟨false, true, true⟩ (ActionArg.passed none)
        (fun a => some a) initPoolState).1
      = Except.ok ((fun a => some a) initPoolState.page_action,
          initPoolState.round_robin_index % initPoolState.browser_count) :=
  resolve_action_amended ⟨false, true, true⟩ (fun a => some a) initPoolState
    (by decide)

end Flow2API
